import Mathlib

/-!
Verification development for the request/response orchestration core of the
code-smell analyzer SPA (modules src/js/api.js, src/js/app.js, state.js and
ui.js of the repository).

The JavaScript sources are shallowly embedded: JSON values become the
inductive type `Json` together with an executable parser `Json.parse`
modelling the acceptance behaviour of the built-in JSON.parse (ASCII inputs;
JS float formatting is not modelled, numeric literals are kept verbatim);
DOM and session state become explicit records; each async event handler is
split into a start function (the code up to its await) and a finish function
(the code after the await), with the fetch outcome passed in explicitly.
-/

set_option maxRecDepth 10000

-- ── JSON values ──────────────────────────────────────────────────────────────

/-- A JavaScript value produced by JSON.parse: null, boolean, number, string,
array or plain object. Numeric literals are stored verbatim (the source never
inspects numeric values). Object fields are kept in textual order; property
lookup takes the last binding, matching the JS last-wins rule for duplicate
keys in a JSON object literal. -/
inductive Json where
  | null : Json
  | bool (b : Bool) : Json
  | num (lit : String) : Json
  | str (s : String) : Json
  | arr (elems : List Json) : Json
  | obj (fields : List (String × Json)) : Json

/-- Property lookup on a JS object created by JSON.parse: with duplicate keys
the last occurrence wins. -/
def lookupLast (fields : List (String × Json)) (key : String) : Option Json :=
  fields.foldl (fun acc kv => if kv.1 = key then some kv.2 else acc) none

/-- True exactly for the values on which the JS code can set properties
without a strict-mode TypeError: objects and arrays. -/
def structuredJson : Json → Bool
  | Json.obj _ => true
  | Json.arr _ => true
  | _ => false

/-- True exactly for plain objects. -/
def Json.isObj : Json → Bool
  | Json.obj _ => true
  | _ => false

-- ── Character helpers ────────────────────────────────────────────────────────

/-- The backtick character (written via its code point to keep source tidy). -/
def btick : Char := Char.ofNat 96

/-- Opening curly brace. -/
def lbrace : Char := Char.ofNat 123

/-- Closing curly brace. -/
def rbrace : Char := Char.ofNat 125

/-- Whitespace in the sense of the JS regexp class backslash-s and of
String.prototype.trim, restricted to the ASCII range (space, tab, LF, CR,
vertical tab, form feed). Non-ASCII whitespace is not modelled; every input
appearing in the theorems below is ASCII. -/
def isJsWsChar (c : Char) : Bool :=
  c = ' ' || c = '\t' || c = '\n' || c = '\r' || c = Char.ofNat 11 || c = Char.ofNat 12

/-- Whitespace accepted between tokens by JSON.parse (ECMA-404: space, tab,
LF, CR only). -/
def isJsonWs (c : Char) : Bool :=
  c = ' ' || c = '\t' || c = '\n' || c = '\r'

/-- Drops leading JSON whitespace. -/
def skipWs (cs : List Char) : List Char := cs.dropWhile isJsonWs

/-- ASCII decimal digit test. -/
def isDigitCh (c : Char) : Bool := '0' ≤ c && c ≤ '9'

/-- Value of a hexadecimal digit, if any. -/
def hexVal (c : Char) : Option Nat :=
  if isDigitCh c then some (c.toNat - 48)
  else if 'a' ≤ c && c ≤ 'f' then some (c.toNat - 87)
  else if 'A' ≤ c && c ≤ 'F' then some (c.toNat - 55)
  else none

/-- Embedding of String.prototype.trim (ASCII whitespace, see isJsWsChar). -/
def jsTrim (s : String) : String :=
  String.mk (((s.toList.dropWhile isJsWsChar).reverse.dropWhile isJsWsChar).reverse)

/-- ASCII lowercasing, the embedding of String.prototype.toLowerCase for the
inputs that occur here. -/
def lowerStr (s : String) : String := String.mk (s.toList.map Char.toLower)

-- ── JSON parser (model of JSON.parse) ────────────────────────────────────────

/-- Parses the four-hex-digit part of a backslash-u escape. -/
def parseHex4 : List Char → Option (Nat × List Char)
  | a :: b :: c :: d :: rest =>
    match hexVal a, hexVal b, hexVal c, hexVal d with
    | some x, some y, some z, some w => some (4096 * x + 256 * y + 16 * z + w, rest)
    | _, _, _, _ => none
  | _ => none

/-- Parses the body of a JSON string after the opening quote, returning the
decoded characters and the remainder after the closing quote. Raw control
characters are rejected as JSON.parse does; the standard escapes and
backslash-u are handled (lone surrogates fall back to the default Char). -/
def parseStrChars : Nat → List Char → Option (List Char × List Char)
  | 0, _ => none
  | Nat.succ fuel, cs =>
    match cs with
    | [] => none
    | c :: rest =>
      if c = '\"' then some ([], rest)
      else if c = '\\' then
        match rest with
        | [] => none
        | e :: rest2 =>
          if e = 'u' then
            match parseHex4 rest2 with
            | some (n, rest3) =>
              (parseStrChars fuel rest3).map (fun p => (Char.ofNat n :: p.1, p.2))
            | none => none
          else
            let esc : Option Char :=
              if e = '\"' then some '\"'
              else if e = '\\' then some '\\'
              else if e = '/' then some '/'
              else if e = 'b' then some (Char.ofNat 8)
              else if e = 'f' then some (Char.ofNat 12)
              else if e = 'n' then some '\n'
              else if e = 'r' then some '\r'
              else if e = 't' then some '\t'
              else none
            match esc with
            | some ch => (parseStrChars fuel rest2).map (fun p => (ch :: p.1, p.2))
            | none => none
      else if c.toNat < 32 then none
      else (parseStrChars fuel rest).map (fun p => (c :: p.1, p.2))

/-- Parses a JSON numeric literal (sign, integer part without leading zeros,
optional fraction, optional exponent) and returns it verbatim together with
the remaining input. -/
def parseNumber (cs : List Char) : Option (String × List Char) :=
  let signPart : List Char × List Char :=
    match cs with
    | c :: rest => if c = '-' then (['-'], rest) else ([], cs)
    | [] => ([], cs)
  let sign := signPart.1
  let afterSign := signPart.2
  let intPart : Option (List Char × List Char) :=
    match afterSign with
    | c :: rest =>
      if c = '0' then some (['0'], rest)
      else if isDigitCh c then
        some (c :: rest.takeWhile isDigitCh, rest.dropWhile isDigitCh)
      else none
    | [] => none
  match intPart with
  | none => none
  | some (ip, afterInt) =>
    let fracPart : Option (List Char × List Char) :=
      match afterInt with
      | c :: rest =>
        if c = '.' then
          match rest.takeWhile isDigitCh with
          | [] => none
          | ds => some ('.' :: ds, rest.dropWhile isDigitCh)
        else some ([], afterInt)
      | [] => some ([], afterInt)
    match fracPart with
    | none => none
    | some (fp, afterFrac) =>
      let expPart : Option (List Char × List Char) :=
        match afterFrac with
        | c :: rest =>
          if c = 'e' || c = 'E' then
            let signedRest : List Char × List Char :=
              match rest with
              | d :: rest2 => if d = '+' || d = '-' then ([c, d], rest2) else ([c], rest)
              | [] => ([c], rest)
            match signedRest.2.takeWhile isDigitCh with
            | [] => none
            | ds => some (signedRest.1 ++ ds, signedRest.2.dropWhile isDigitCh)
          else some ([], afterFrac)
        | [] => some ([], afterFrac)
      match expPart with
      | none => none
      | some (ep, afterExp) => some (String.mk (sign ++ ip ++ fp ++ ep), afterExp)

mutual

/-- Parses one JSON value (leading whitespace allowed), fuel-indexed. -/
def parseVal : Nat → List Char → Option (Json × List Char)
  | 0, _ => none
  | Nat.succ fuel, cs0 =>
    match skipWs cs0 with
    | [] => none
    | c :: rest =>
      if c = lbrace then
        match skipWs rest with
        | [] => none
        | d :: rest2 =>
          if d = rbrace then some (Json.obj [], rest2)
          else
            match parseMember fuel (d :: rest2) with
            | none => none
            | some (kv, cs2) =>
              match parseObjRest fuel cs2 with
              | none => none
              | some (kvs, cs3) => some (Json.obj (kv :: kvs), cs3)
      else if c = '[' then
        match skipWs rest with
        | [] => none
        | d :: rest2 =>
          if d = ']' then some (Json.arr [], rest2)
          else
            match parseVal fuel (d :: rest2) with
            | none => none
            | some (v, cs2) =>
              match parseArrRest fuel cs2 with
              | none => none
              | some (vs, cs3) => some (Json.arr (v :: vs), cs3)
      else if c = '\"' then
        match parseStrChars (rest.length + 1) rest with
        | none => none
        | some (chars, cs2) => some (Json.str (String.mk chars), cs2)
      else if c = 't' then
        if rest.take 3 = ['r', 'u', 'e'] then some (Json.bool true, rest.drop 3) else none
      else if c = 'f' then
        if rest.take 4 = ['a', 'l', 's', 'e'] then some (Json.bool false, rest.drop 4) else none
      else if c = 'n' then
        if rest.take 3 = ['u', 'l', 'l'] then some (Json.null, rest.drop 3) else none
      else
        match parseNumber (c :: rest) with
        | none => none
        | some (lit, cs2) => some (Json.num lit, cs2)

/-- Parses one object member: a string key, a colon, a value. -/
def parseMember : Nat → List Char → Option ((String × Json) × List Char)
  | 0, _ => none
  | Nat.succ fuel, cs =>
    match cs with
    | [] => none
    | c :: rest =>
      if c = '\"' then
        match parseStrChars (rest.length + 1) rest with
        | none => none
        | some (kcs, cs2) =>
          match skipWs cs2 with
          | ':' :: cs3 =>
            match parseVal fuel cs3 with
            | none => none
            | some (v, cs4) => some ((String.mk kcs, v), cs4)
          | _ => none
      else none

/-- Parses the remaining members of an object after the first one. -/
def parseObjRest : Nat → List Char → Option (List (String × Json) × List Char)
  | 0, _ => none
  | Nat.succ fuel, cs =>
    match skipWs cs with
    | [] => none
    | c :: rest =>
      if c = rbrace then some ([], rest)
      else if c = ',' then
        match parseMember fuel (skipWs rest) with
        | none => none
        | some (kv, cs2) =>
          match parseObjRest fuel cs2 with
          | none => none
          | some (kvs, cs3) => some (kv :: kvs, cs3)
      else none

/-- Parses the remaining elements of an array after the first one. -/
def parseArrRest : Nat → List Char → Option (List Json × List Char)
  | 0, _ => none
  | Nat.succ fuel, cs =>
    match skipWs cs with
    | [] => none
    | c :: rest =>
      if c = ']' then some ([], rest)
      else if c = ',' then
        match parseVal fuel rest with
        | none => none
        | some (v, cs2) =>
          match parseArrRest fuel cs2 with
          | none => none
          | some (vs, cs3) => some (v :: vs, cs3)
      else none

end

/-- Executable model of JSON.parse: a single JSON value surrounded by
whitespace, nothing else. The fuel bound covers any derivation on the given
input because every two nested calls consume at least one character. -/
def Json.parse (s : String) : Option Json :=
  let cs := s.toList
  match parseVal (2 * cs.length + 8) cs with
  | some (v, rest) => if (skipWs rest).isEmpty then some v else none
  | none => none

-- ── api.js: fence stripping and normalization (analyzeCode, lines 140-159) ───

/-- Embedding of the fence stripping in analyzeCode:
rawText.replace(regex one, empty).replace(regex two, empty).trim() where the
first pattern anchors at the start and eats three backticks, an optional
case-insensitive json tag and trailing whitespace, and the second pattern
removes a trailing fence with the whitespace run before it (both patterns
replace at most one occurrence, as non-global JS replace does). -/
def stripFences (raw : String) : String :=
  let cs := raw.toList
  let cs1 :=
    match cs with
    | a :: b :: c :: rest =>
      if a = btick && b = btick && c = btick then
        let rest2 :=
          if (rest.take 4).map Char.toLower = ['j', 's', 'o', 'n'] then rest.drop 4 else rest
        rest2.dropWhile isJsWsChar
      else cs
    | _ => cs
  let cs2 :=
    match cs1.reverse with
    | a :: b :: c :: rest =>
      if a = btick && b = btick && c = btick then (rest.dropWhile isJsWsChar).reverse
      else cs1
    | _ => cs1
  String.mk (((cs2.dropWhile isJsWsChar).reverse.dropWhile isJsWsChar).reverse)

/-- The two ways the normalization tail of analyzeCode can fail: the JSON.parse
call throws (caught and rethrown as the parse-failure message), or the
field-repair assignments throw an uncaught strict-mode TypeError because the
parsed top-level value is null or a primitive. -/
inductive NormErr where
  | parseError : NormErr
  | typeError : NormErr

/-- The repaired analysis result: the three fields the source guarantees and
every consumer reads (state.setAnalysisResult, ui.renderResults, onCopy).
Smells elements are kept as raw JSON values because the source passes them
through untouched. -/
structure AnalysisResult where
  summary : String
  smells : List Json
  refactored_code : String

/-- Embedding of the field repair in analyzeCode on the parsed value: on a
plain object the three assignments guard each field (smells must be an array,
summary a string, refactored code a string, with the submitted code as the
refactored-code default); on an array the same assignments succeed and leave
all three fields defaulted; on null or a primitive the first property access
or strict-mode property creation throws a TypeError. -/
def repairParsed (result : Json) (code : String) : Except NormErr AnalysisResult :=
  match result with
  | Json.obj fields =>
    Except.ok
      { smells :=
          match lookupLast fields "smells" with
          | some (Json.arr xs) => xs
          | _ => []
        summary :=
          match lookupLast fields "summary" with
          | some (Json.str s) => s
          | _ => ""
        refactored_code :=
          match lookupLast fields "refactored_code" with
          | some (Json.str s) => s
          | _ => code }
  | Json.arr _ => Except.ok { smells := [], summary := "", refactored_code := code }
  | _ => Except.error NormErr.typeError

/-- Embedding of the normalization tail of analyzeCode (the spec calls it
normalizeAnalysis): strip fences, JSON.parse, then field repair with the
submitted code as fallback. -/
def normalizeAnalysis (rawText : String) (code : String) : Except NormErr AnalysisResult :=
  match Json.parse (stripFences rawText) with
  | none => Except.error NormErr.parseError
  | some v => repairParsed v code

-- ── api.js: callGemini (lines 68-122) ────────────────────────────────────────

/-- Gemini 2.0 Flash content-generation endpoint (api.js constant). -/
def GEMINI_ENDPOINT : String :=
  "https://generativelanguage.googleapis.com/v1beta/models/gemini-2.5-flash-lite:generateContent"

/-- Hard timeout for every Gemini request, in milliseconds (api.js constant
passed to AbortSignal.timeout). -/
def REQUEST_TIMEOUT_MS : Nat := 30000

/-- The outcome of the fetch call as callGemini observes it: either the
promise rejects with an error whose name field is recorded (TimeoutError for
the expired AbortSignal.timeout, AbortError in engines reporting the abort
generically, other names for connection failures), or an HTTP response
arrives with a status and a body that response.json() either parses to a
JSON value or fails on. -/
inductive FetchOutcome where
  | transportFail (errName : String) : FetchOutcome
  | response (status : Nat) (body : Option Json) : FetchOutcome

/-- The failures callGemini can throw, one constructor per classification in
the source; the malformed-envelope case records which of the two throw sites
fired (body unparseable versus text field absent, non-string or blank). -/
inductive CallErr where
  | timeout : CallErr
  | networkError : CallErr
  | badCredential : CallErr
  | unauthorized : CallErr
  | rateLimited : CallErr
  | endpointError (status : Nat) : CallErr
  | malformedEnvelope (noContent : Bool) : CallErr

/-- The human-readable message of each callGemini failure, verbatim from the
source. -/
def errMessage : CallErr → String
  | CallErr.timeout => "Request timed out. Please try again."
  | CallErr.networkError => "Network error. Please check your connection."
  | CallErr.badCredential => "Invalid or missing API key."
  | CallErr.unauthorized => "API key is unauthorised. Check that your key is valid and active."
  | CallErr.rateLimited => "API rate limit exceeded. Please wait a moment and try again."
  | CallErr.endpointError status => "Gemini API error (HTTP " ++ toString status ++ "). Please try again."
  | CallErr.malformedEnvelope false => "Malformed response from Gemini."
  | CallErr.malformedEnvelope true => "Malformed response from Gemini — no content returned."

/-- Property access as used in the optional chain of callGemini: null-safe,
yielding none for a missing property and for every value that has no such
property (primitives box and yield undefined). -/
def jsGetOpt (v : Json) (key : String) : Option Json :=
  match v with
  | Json.obj fields => lookupLast fields key
  | _ => none

/-- Index access with subscript zero as used in the optional chain: the first
array element, the property named 0 of an object, the first character of a
string. -/
def jsIndexZero (v : Json) : Option Json :=
  match v with
  | Json.arr xs => xs.head?
  | Json.obj fields => lookupLast fields "0"
  | Json.str s =>
    match s.toList with
    | c :: _ => some (Json.str (String.mk [c]))
    | [] => none
  | _ => none

/-- The optional chain data candidates 0 content parts 0 text, followed by
the typeof-string check: some t exactly when the chain reaches a string. -/
def extractedText (data : Json) : Option String :=
  match
    ((((jsGetOpt data "candidates").bind jsIndexZero).bind
      (fun v => jsGetOpt v "content")).bind
      (fun v => jsGetOpt v "parts")).bind jsIndexZero |>.bind (fun v => jsGetOpt v "text")
  with
  | some (Json.str t) => some t
  | _ => none

/-- Response.ok of the fetch API: a status in the 2xx range. -/
def respOk (status : Nat) : Bool := 200 ≤ status && status ≤ 299

/-- Embedding of the classification body of callGemini (everything after the
fetch call): transport failures split on the error name, then the status
checks in source order, then the envelope extraction. On success the text
payload is returned verbatim. -/
def geminiOutcome (o : FetchOutcome) : Except CallErr String :=
  match o with
  | FetchOutcome.transportFail errName =>
    if errName = "TimeoutError" || errName = "AbortError" then Except.error CallErr.timeout
    else Except.error CallErr.networkError
  | FetchOutcome.response status body =>
    if status = 400 then Except.error CallErr.badCredential
    else if status = 401 || status = 403 then Except.error CallErr.unauthorized
    else if status = 429 then Except.error CallErr.rateLimited
    else if !respOk status then Except.error (CallErr.endpointError status)
    else
      match body with
      | none => Except.error (CallErr.malformedEnvelope false)
      | some data =>
        match extractedText data with
        | some t => if jsTrim t = "" then Except.error (CallErr.malformedEnvelope true) else Except.ok t
        | none => Except.error (CallErr.malformedEnvelope true)

/-- The outbound request callGemini builds: fixed URL, POST, content type and
credential header, JSON body (the transport serialization of the body is not
modelled; the body is kept structured). -/
structure HttpRequest where
  url : String
  method : String
  headers : List (String × String)
  body : Json

/-- Embedding of the request construction in callGemini: the credential goes
into the x-goog-api-key header and nowhere else; forceJson adds the
generationConfig constraint. -/
def buildGeminiRequest (prompt : String) (apiKey : String) (forceJson : Bool) : HttpRequest :=
  let contents := Json.arr [Json.obj [("parts", Json.arr [Json.obj [("text", Json.str prompt)]])]]
  let requestBody :=
    if forceJson then
      Json.obj [("contents", contents),
        ("generationConfig", Json.obj [("response_mime_type", Json.str "application/json")])]
    else Json.obj [("contents", contents)]
  { url := GEMINI_ENDPOINT
    method := "POST"
    headers := [("Content-Type", "application/json"), ("x-goog-api-key", apiKey)]
    body := requestBody }

/-- Embedding of callGemini as a whole: the request it issues and the result
of classifying the given fetch outcome. -/
def callGemini (prompt : String) (apiKey : String) (forceJson : Bool) (o : FetchOutcome) :
    HttpRequest × Except CallErr String :=
  (buildGeminiRequest prompt apiKey forceJson, geminiOutcome o)

/-- String lookup in a header list (first match; header names are unique
here). -/
def lookupHeader (headers : List (String × String)) (name : String) : Option String :=
  match headers with
  | [] => none
  | kv :: rest => if kv.1 = name then some kv.2 else lookupHeader rest name

-- ── ui.js: severity normalization and smell cards ────────────────────────────

/-- The rendered data of one smell card (ui.js createSmellCard): the name
span, the severity badge text, the severity css key, the location span and
the explanation paragraph. Markup and aria attributes are presentation and
not modelled. -/
structure SmellCard where
  name : String
  badge : String
  sevClass : String
  location : String
  explanation : String

/-- Plain (non-optional-chained) property read as the smell card code
performs it: reading a property of null throws a TypeError; primitives box
and yield undefined; arrays have none of the property names used here. -/
def readProp (v : Json) (key : String) : Except NormErr (Option Json) :=
  match v with
  | Json.null => Except.error NormErr.typeError
  | Json.obj fields => Except.ok (lookupLast fields key)
  | _ => Except.ok none

mutual

/-- Conversion to display text as textContent assignment stringifies values:
strings verbatim, numbers by their literal (JS float re-formatting is not
modelled), booleans and null by name, arrays by the comma join of their
elements with null joined as empty, objects by the object placeholder. -/
def jsDisplay : Json → String
  | Json.str s => s
  | Json.num lit => lit
  | Json.bool b => cond b "true" "false"
  | Json.null => "null"
  | Json.obj _ => "[object Object]"
  | Json.arr xs => jsDisplayList xs

/-- Comma join of array elements for jsDisplay: null joins as the empty
string, per Array.prototype.join. -/
def jsDisplayList : List Json → String
  | [] => ""
  | x :: xs =>
    (match x with
     | Json.null => ""
     | y => jsDisplay y) ++
    (match xs with
     | [] => ""
     | _ => "," ++ jsDisplayList xs)

end

/-- True exactly for JS-truthy JSON values: null and false are falsy, the
empty string is falsy, a numeric literal is falsy exactly when its mantissa
digits are all zero, arrays and objects are truthy. -/
def jsTruthy (v : Json) : Bool :=
  match v with
  | Json.null => false
  | Json.bool b => b
  | Json.str s => !(s = "")
  | Json.num lit =>
    !(((lit.toList.takeWhile (fun c => !(c = 'e' || c = 'E'))).filter isDigitCh).all
      (fun c => c = '0'))
  | Json.arr _ => true
  | Json.obj _ => true

/-- Embedding of ui.js normaliseSeverity: nullish values fall to the empty
string, a string is lowercased and matched against the two named cases with
minor as the default, and calling toLowerCase on any other value throws a
TypeError. -/
def normaliseSeverity (severity : Option Json) : Except NormErr String :=
  match severity with
  | none => Except.ok "minor"
  | some Json.null => Except.ok "minor"
  | some (Json.str s) =>
    let l := lowerStr s
    Except.ok (if l = "critical" then "critical" else if l = "major" then "major" else "minor")
  | some _ => Except.error NormErr.typeError

/-- Embedding of ui.js createSmellCard on one raw smell value: severity css
key first (the source calls normaliseSeverity before building the card), then
the nullish-coalescing fallbacks for name (Unknown Smell), badge text
(Minor) and explanation (empty), and the truthiness-guarded location line. -/
def createSmellCard (smell : Json) : Except NormErr SmellCard :=
  match readProp smell "severity" with
  | Except.error e => Except.error e
  | Except.ok sevVal =>
    match normaliseSeverity sevVal with
    | Except.error e => Except.error e
    | Except.ok sevClass =>
      match readProp smell "name", readProp smell "location", readProp smell "explanation" with
      | Except.ok nameVal, Except.ok locVal, Except.ok explVal =>
        Except.ok
          { name :=
              match nameVal with
              | none => "Unknown Smell"
              | some Json.null => "Unknown Smell"
              | some v => jsDisplay v
            badge :=
              match sevVal with
              | none => "Minor"
              | some Json.null => "Minor"
              | some v => jsDisplay v
            sevClass := sevClass
            location :=
              match locVal with
              | none => ""
              | some v => if jsTruthy v then "📍 " ++ jsDisplay v else ""
            explanation :=
              match explVal with
              | none => ""
              | some Json.null => ""
              | some v => jsDisplay v }
      | Except.error e, _, _ => Except.error e
      | _, Except.error e, _ => Except.error e
      | _, _, Except.error e => Except.error e

/-- Embedding of ui.js renderSmells over the raw smells list: builds one card
per element; a TypeError from any card propagates (in the source it escapes
renderResults into the onAnalyze catch). -/
def renderCards : List Json → Except NormErr (List SmellCard)
  | [] => Except.ok []
  | smell :: rest =>
    match createSmellCard smell with
    | Except.error e => Except.error e
    | Except.ok card =>
      match renderCards rest with
      | Except.error e => Except.error e
      | Except.ok cards => Except.ok (card :: cards)

-- ── ui.js: element state touched by the handlers ─────────────────────────────

/-- The DOM state the modelled handlers read or write: the disabled flags of
the controls, the loading indicator, the error banner (some message when
visible), the results and chat panel visibility, the chat input value, the
chat send label and the chat log mirror. Text nodes of the results pane are
presentation and not modelled. -/
structure UIState where
  analyzeBtnDisabled : Bool
  codeInputDisabled : Bool
  languageSelectDisabled : Bool
  clearBtnDisabled : Bool
  loadingVisible : Bool
  errorBanner : Option String
  resultsVisible : Bool
  chatPanelVisible : Bool
  chatInputValue : String
  chatInputDisabled : Bool
  chatSendBtnDisabled : Bool
  chatSendLabel : String
  chatLog : List (String × String)

/-- Embedding of ui.js setLoading: toggles the spinner and disables the
analyze button, the code input, the language select and the clear button
while a request is in flight. The chat controls are not touched. -/
def setLoading (u : UIState) (loading : Bool) : UIState :=
  { u with loadingVisible := loading, analyzeBtnDisabled := loading,
           codeInputDisabled := loading, languageSelectDisabled := loading,
           clearBtnDisabled := loading }

/-- Embedding of ui.js setAnalyzeButtonEnabled. -/
def setAnalyzeButtonEnabled (u : UIState) (enabled : Bool) : UIState :=
  { u with analyzeBtnDisabled := !enabled }

/-- Embedding of ui.js showError. -/
def showError (u : UIState) (message : String) : UIState :=
  { u with errorBanner := some message }

/-- Embedding of ui.js hideError. -/
def hideError (u : UIState) : UIState := { u with errorBanner := none }

/-- Embedding of ui.js setChatSending: disables only the chat send button and
the chat input; the analyze button keeps its state. -/
def setChatSending (u : UIState) (sending : Bool) : UIState :=
  { u with chatSendBtnDisabled := sending, chatInputDisabled := sending,
           chatSendLabel := if sending then "…" else "Send" }

/-- Embedding of ui.js clearChatInput. -/
def clearChatInput (u : UIState) : UIState := { u with chatInputValue := "" }

/-- Embedding of ui.js showChatPanel. -/
def showChatPanel (u : UIState) : UIState := { u with chatPanelVisible := true }

/-- Embedding of ui.js appendChatMessage (the DOM chat log mirror). -/
def appendChatMessage (u : UIState) (role text : String) : UIState :=
  { u with chatLog := u.chatLog ++ [(role, text)] }

/-- Embedding of ui.js renderResults: builds the smell cards and reveals the
results section; a TypeError from a card propagates to the caller. The
summary, badge and code panes always render once the cards succeeded. -/
def renderResults (u : UIState) (result : AnalysisResult) : Except NormErr UIState :=
  match renderCards result.smells with
  | Except.error e => Except.error e
  | Except.ok _ => Except.ok { u with resultsVisible := true }

-- ── state.js: the session record ─────────────────────────────────────────────

/-- One chat history entry as state.js appendChat builds it: the role literal
(the source uses user and gemini), the text and the Date timestamp (modelled
as a number). -/
structure ChatEntry where
  role : String
  text : String
  timestamp : Nat

/-- The module-level mutable state of state.js. -/
structure SessionState where
  apiKey : Option String
  currentCode : String
  currentLanguage : String
  analysisResult : Option AnalysisResult
  chatHistory : List ChatEntry

/-- The state.js module as loaded: no key, empty code, auto language, no
result, empty history. -/
def initialSession : SessionState :=
  { apiKey := none, currentCode := "", currentLanguage := "auto",
    analysisResult := none, chatHistory := [] }

/-- Embedding of state.js reset: restores every field except the API key,
which is intentionally preserved. -/
def reset (s : SessionState) : SessionState :=
  { s with currentCode := "", currentLanguage := "auto",
           analysisResult := none, chatHistory := [] }

/-- Embedding of state.js appendChat: pushes one timestamped entry onto the
history. -/
def appendChat (s : SessionState) (role text : String) (now : Nat) : SessionState :=
  { s with chatHistory := s.chatHistory ++ [{ role := role, text := text, timestamp := now }] }

-- ── prompt.js: the analysis prompt ───────────────────────────────────────────

/-- The JSON schema description embedded in the analysis prompt, verbatim
from prompt.js. -/
def ANALYSIS_SCHEMA : String :=
  "\x7b\n  \"summary\": \"<2-3 sentence overall assessment>\",\n  \"smells\": [\n    \x7b\n      \"name\": \"<smell name>\",\n      \"severity\": \"<Critical | Major | Minor>\",\n      \"location\": \"<function name, line range, or description>\",\n      \"explanation\": \"<why this is a problem and its impact>\"\n    \x7d\n  ],\n  \"refactored_code\": \"<complete refactored source code as a string>\"\n\x7d"

/-- Embedding of prompt.js buildAnalysisPrompt: pure template rendering. A
non-empty language other than auto and other is displayed and used as the
fence tag, otherwise the generic wording and an empty tag are used. -/
def buildAnalysisPrompt (code : String) (language : String) : String :=
  let named := !(language = "") && !(language = "auto") && !(language = "other")
  let langDisplay := if named then language else "the following"
  let langFence := if named then language else ""
  "You are a senior software engineer specialising in code quality.\n\nAnalyse the following "
    ++ langDisplay
    ++ " code for code smells.\nReturn your response as valid JSON matching this exact schema:\n\n"
    ++ ANALYSIS_SCHEMA
    ++ "\n\nRules:\n- If no code smells are found, return an empty smells array.\n- severity MUST be exactly one of: Critical, Major, Minor.\n- refactored_code must contain the complete, runnable refactored source.\n- Do NOT include markdown fences or any text outside the JSON object.\n\nCode to analyse:\n```"
    ++ langFence ++ "\n" ++ code ++ "\n```"

-- ── api.js: analyzeCode as a whole ───────────────────────────────────────────

/-- The failures of api.analyzeCode as onAnalyze observes them: a callGemini
failure, the parse failure of the analysis JSON, or the uncaught strict-mode
TypeError from the field repair on a non-object top-level value. -/
inductive AnalyzeErr where
  | call (e : CallErr) : AnalyzeErr
  | parseError : AnalyzeErr
  | typeError : AnalyzeErr

/-- Placeholder for the engine-generated text of an uncaught TypeError (the
exact wording is engine-specific and nothing in the source depends on it). -/
def typeErrorMessage : String := "TypeError"

/-- The message carried by each analyzeCode failure. -/
def analyzeErrMessage : AnalyzeErr → String
  | AnalyzeErr.call e => errMessage e
  | AnalyzeErr.parseError => "Malformed response from Gemini. Could not parse the analysis result."
  | AnalyzeErr.typeError => typeErrorMessage

/-- The message carried by a normalization failure (used when a render-time
TypeError reaches the onAnalyze catch). -/
def normErrMessage : NormErr → String
  | NormErr.parseError => "Malformed response from Gemini. Could not parse the analysis result."
  | NormErr.typeError => typeErrorMessage

/-- Embedding of api.analyzeCode: build the analysis prompt, call Gemini with
forceJson set, then normalize the returned text with the submitted code as
the refactored-code fallback. Returns the issued request and the result of
the given fetch outcome. -/
def analyzeCode (code language apiKey : String) (o : FetchOutcome) :
    HttpRequest × Except AnalyzeErr AnalysisResult :=
  let call := callGemini (buildAnalysisPrompt code language) apiKey true o
  (call.1,
    match call.2 with
    | Except.error e => Except.error (AnalyzeErr.call e)
    | Except.ok rawText =>
      match normalizeAnalysis rawText code with
      | Except.error NormErr.parseError => Except.error AnalyzeErr.parseError
      | Except.error NormErr.typeError => Except.error AnalyzeErr.typeError
      | Except.ok r => Except.ok r)

-- ── app.js: the event handlers ───────────────────────────────────────────────

/-- A completion request issued by a handler, identified by the data it was
built from. -/
inductive Req where
  | analyzeReq (code language apiKey : String) : Req
  | followUpReq (question originalCode apiKey : String) : Req

/-- The whole application state the handlers touch: the state.js record, the
DOM state and a count of completion requests issued but not yet finished
(incremented when a handler reaches its await, decremented when it
resumes). -/
structure AppState where
  session : SessionState
  ui : UIState
  pending : Nat

/-- The missing-key message of onAnalyze, verbatim from app.js. -/
def missingKeyMessage : String :=
  "Invalid or missing API key. Open config.json and add your Gemini API key."

/-- Embedding of app.js onAnalyze up to its await: reads code, language and
key from state, rejects a falsy key with the error banner, otherwise hides
the error, enters the loading state and issues the analysis request. -/
def onAnalyzeStart (s : AppState) : AppState × Option Req :=
  let code := s.session.currentCode
  let language := s.session.currentLanguage
  match s.session.apiKey with
  | none => ({ s with ui := showError s.ui missingKeyMessage }, none)
  | some key =>
    if key = "" then ({ s with ui := showError s.ui missingKeyMessage }, none)
    else
      ({ s with ui := setLoading (hideError s.ui) true, pending := s.pending + 1 },
       some (Req.analyzeReq code language key))

/-- Embedding of app.js onAnalyze after its await, with the code captured at
start and the outcome of api.analyzeCode: on success the result is stored in
state and rendered and the chat panel revealed (a render-time TypeError is
caught and shown instead); on failure the message is shown; the finally
block leaves the loading state and re-evaluates the analyze button from the
captured code length. -/
def onAnalyzeFinish (s : AppState) (code : String)
    (outcome : Except AnalyzeErr AnalysisResult) : AppState :=
  let s1 :=
    match outcome with
    | Except.ok result =>
      let sA := { s with session := { s.session with analysisResult := some result } }
      match renderResults sA.ui result with
      | Except.ok u2 => { sA with ui := showChatPanel u2 }
      | Except.error e => { sA with ui := showError sA.ui (normErrMessage e) }
    | Except.error e => { s with ui := showError s.ui (analyzeErrMessage e) }
  { s1 with ui := setAnalyzeButtonEnabled (setLoading s1.ui false) (decide (10 ≤ code.length)),
            pending := s1.pending - 1 }

/-- A click on the Analyze button: a disabled control dispatches no click
event, so the handler runs only when the button is enabled. -/
def clickAnalyze (s : AppState) : AppState × Option Req :=
  if s.ui.analyzeBtnDisabled then (s, none) else onAnalyzeStart s

/-- Embedding of app.js onChatSend up to its await: trims the question and
silently returns when the question, the key or the prior analysis is
missing; otherwise appends the user entry optimistically to state and the
chat log, clears the input, enters the sending state and issues the
follow-up request. -/
def onChatSendStart (s : AppState) (now : Nat) : AppState × Option Req :=
  let question := jsTrim s.ui.chatInputValue
  let originalCode := s.session.currentCode
  if question = "" then (s, none)
  else
    match s.session.apiKey with
    | none => (s, none)
    | some key =>
      if key = "" then (s, none)
      else
        match s.session.analysisResult with
        | none => (s, none)
        | some _ =>
          ({ s with
              session := appendChat s.session "user" question now
              ui := setChatSending (clearChatInput (appendChatMessage s.ui "user" question)) true
              pending := s.pending + 1 },
           some (Req.followUpReq question originalCode key))

/-- A chat send attempt (button click or Enter in the chat input): both
controls are disabled together while a follow-up is in flight, and a
disabled control dispatches no event. -/
def clickChatSend (s : AppState) (now : Nat) : AppState × Option Req :=
  if s.ui.chatSendBtnDisabled then (s, none) else onChatSendStart s now

/-- Embedding of app.js onChatSend after its await: on success the reply is
appended to state and the chat log with role gemini; on failure the message
is shown and the optimistic user entry stays; the finally block leaves the
sending state. -/
def onChatSendFinish (s : AppState) (outcome : Except CallErr String) (now : Nat) : AppState :=
  let s1 :=
    match outcome with
    | Except.ok reply =>
      { s with session := appendChat s.session "gemini" reply now
               ui := appendChatMessage s.ui "gemini" reply }
    | Except.error e => { s with ui := showError s.ui (errMessage e) }
  { s1 with ui := setChatSending s1.ui false, pending := s1.pending - 1 }

-- ── Helper views and concrete scenario states ────────────────────────────────

/-- The smells carried by a normalization outcome (empty on failure). -/
def resultSmells : Except NormErr AnalysisResult → List Json
  | Except.ok r => r.smells
  | Except.error _ => []

/-- The value of one field of the parsed top-level object of a raw text after
fence stripping (none when the text does not parse to an object or lacks the
field). -/
def parsedField (text : String) (key : String) : Option Json :=
  match Json.parse (stripFences text) with
  | some (Json.obj fields) => lookupLast fields key
  | _ => none

/-- A well-formed Gemini success envelope whose text payload is the given
string. -/
def okEnvelope (payload : String) : Json :=
  Json.obj [("candidates",
    Json.arr [Json.obj [("content",
      Json.obj [("parts", Json.arr [Json.obj [("text", Json.str payload)]])])]])]

/-- The DOM state after boot once the user has typed enough code: all
controls enabled, no banner, panels hidden, empty chat. -/
def startUI : UIState :=
  { analyzeBtnDisabled := false, codeInputDisabled := false,
    languageSelectDisabled := false, clearBtnDisabled := false,
    loadingVisible := false, errorBanner := none, resultsVisible := false,
    chatPanelVisible := false, chatInputValue := "", chatInputDisabled := false,
    chatSendBtnDisabled := false, chatSendLabel := "Send", chatLog := [] }

/-- A concrete submitted source text, longer than the ten-character analyze
threshold. -/
def scenarioCode : String := "function add(a, b) \x7b return a + b; \x7d"

/-- A concrete analysis payload the mocked endpoint returns. -/
def mockEnvelopeText : String :=
  "\x7b\"summary\":\"ok\",\"smells\":[],\"refactored_code\":\"function add(x)\x7breturn x;\x7d\"\x7d"

/-- A session that has booted with a key and holds the submitted code. -/
def s0 : AppState :=
  { session := { apiKey := some "k123", currentCode := scenarioCode,
                 currentLanguage := "auto", analysisResult := none, chatHistory := [] },
    ui := startUI, pending := 0 }

/-- The state right after the Analyze click of the scenario (request in
flight). -/
def s1 : AppState := (clickAnalyze s0).1

/-- The outcome of the scenario analysis call against a 200 envelope. -/
def analyzeOutcome : Except AnalyzeErr AnalysisResult :=
  (analyzeCode scenarioCode "auto" "k123"
    (FetchOutcome.response 200 (some (okEnvelope mockEnvelopeText)))).2

/-- The state after the scenario analysis finished successfully. -/
def s2 : AppState := onAnalyzeFinish s1 scenarioCode analyzeOutcome

/-- The same state once the user has typed a follow-up question. -/
def s3 : AppState := { s2 with ui := { s2.ui with chatInputValue := "why?" } }

/-- The state while the follow-up request of the scenario is in flight (the
Sending phase of the spec). -/
def sSending : AppState := (clickChatSend s3 5).1

/-- A state whose Analyze button is disabled, as setLoading leaves it while
an analysis is in flight. -/
def disabledState : AppState :=
  { session := s0.session, ui := setLoading startUI true, pending := 1 }

/-- A booted state with a typed question but no prior analysis. -/
def sNoAnalysis : AppState :=
  { session := { apiKey := some "k123", currentCode := scenarioCode,
                 currentLanguage := "auto", analysisResult := none, chatHistory := [] },
    ui := { startUI with chatInputValue := "why?" }, pending := 0 }

/-- A second such state (different question) for the witness instance. -/
def sNoAnalysisW : AppState :=
  { sNoAnalysis with ui := { sNoAnalysis.ui with chatInputValue := "what now?" } }

/-- Raw text whose smells array holds an empty object and a bare number. -/
def c1CexText : String :=
  "\x7b\"summary\":\"s\",\"smells\":[\x7b\x7d,5],\"refactored_code\":\"r\"\x7d"

/-- Raw text with one fully populated smell. -/
def c1WitnessText : String :=
  "\x7b\"summary\":\"two smells\",\"smells\":[\x7b\"name\":\"Long Parameter List\",\"severity\":\"Major\",\"location\":\"line 1\",\"explanation\":\"...\"\x7d],\"refactored_code\":\"function f(x)\x7breturn x;\x7d\"\x7d"

/-- Raw text whose refactored code field is present but empty. -/
def c3CexText : String := "\x7b\"refactored_code\":\"\"\x7d"

/-- Raw text that parses to a plain object (for the C4 witness). -/
def c4WitnessText : String := "```json\n\x7b\"summary\":\"s\"\x7d\n```"

/-- The fully populated smell object of the witness payload. -/
def c1Smell : Json :=
  Json.obj [("name", Json.str "Long Parameter List"), ("severity", Json.str "Major"),
            ("location", Json.str "line 1"), ("explanation", Json.str "...")]

-- ── Theorems ─────────────────────────────────────────────────────────────────

/-- C9: reset, callable from any session state, always succeeds, restores
currentCode, currentLanguage, analysisResult and chatHistory to their initial
values, and leaves the credential (the API key) unchanged. -/
theorem claim9_reset_clears_all_but_key (s : SessionState) :
    (reset s).currentCode = initialSession.currentCode ∧
    (reset s).currentLanguage = initialSession.currentLanguage ∧
    (reset s).analysisResult = initialSession.analysisResult ∧
    (reset s).chatHistory = initialSession.chatHistory ∧
    (reset s).apiKey = s.apiKey :=
  ⟨rfl, rfl, rfl, rfl, rfl⟩

/-- C10: every request callGemini builds carries the credential only in the
x-goog-api-key header; the URL is the fixed endpoint constant and is
identical for any two credential values, so the credential never appears in
the URL. -/
theorem claim10_credential_only_in_header (prompt k k1 k2 : String) (forceJson : Bool)
    (o : FetchOutcome) :
    (callGemini prompt k forceJson o).1.url = GEMINI_ENDPOINT ∧
    (callGemini prompt k1 forceJson o).1.url = (callGemini prompt k2 forceJson o).1.url ∧
    lookupHeader (callGemini prompt k forceJson o).1.headers "x-goog-api-key" = some k := by
  refine ⟨rfl, rfl, ?_⟩
  simp [callGemini, buildGeminiRequest, lookupHeader]

/-- C2 (amended): while an analysis is in flight the Analyze control is
disabled (onAnalyzeStart always leaves it so), and a click on a disabled
control is a complete no-op: the state, including analysisResult and the
error banner, is unchanged and no request is issued, with no Busy condition
surfaced. Nothing, however, guards the Sending phase, which is the
counterexample. -/
theorem claim2_busy_guard :
    (∀ s : AppState, s.ui.analyzeBtnDisabled = true → clickAnalyze s = (s, none)) ∧
    (∀ (s s1 : AppState) (req : Req), onAnalyzeStart s = (s1, some req) →
      s1.ui.analyzeBtnDisabled = true) := by
  constructor
  · intro s h
    unfold clickAnalyze
    rw [h]
    simp
  · intro s s1 req h
    unfold onAnalyzeStart at h
    split at h
    · exact Option.noConfusion (congrArg Prod.snd h)
    · split at h
      · exact Option.noConfusion (congrArg Prod.snd h)
      · cases h
        rfl

/-- C2 witness: a concrete disabled-button state on which the guarded click
is the identity. -/
theorem claim2_witness : clickAnalyze disabledState = (disabledState, none) :=
  claim2_busy_guard.1 disabledState rfl

/-- C2 counterexample: with the scenario follow-up request in flight (one
outstanding request, chat controls disabled) the Analyze button is still
enabled and clicking it issues a second completion request, so two requests
are outstanding at once — refuting both the claimed rejection during Sending
and the at-most-one-outstanding-request property (and no Busy condition
exists anywhere in the code). -/
theorem claim2_counterexample :
    sSending.pending = 1 ∧
    sSending.ui.chatSendBtnDisabled = true ∧
    sSending.ui.analyzeBtnDisabled = false ∧
    (clickAnalyze sSending).2 = some (Req.analyzeReq scenarioCode "auto" "k123") ∧
    (clickAnalyze sSending).1.pending = 2 :=
  ⟨rfl, rfl, rfl, rfl, rfl⟩

/-- C5 (amended): a chat send attempt with no prior analysisResult is a
silent no-op: the handler returns before appending anything, the chat
history and every other part of the state are identical before and after,
no request is issued and no error (in particular no NoAnalysisYet failure)
is surfaced. -/
theorem claim5_no_analysis_noop (s : AppState) (now : Nat)
    (h : s.session.analysisResult = none) :
    clickChatSend s now = (s, none) := by
  by_cases hd : s.ui.chatSendBtnDisabled = true
  · simp [clickChatSend, hd]
  · by_cases hq : jsTrim s.ui.chatInputValue = ""
    · simp [clickChatSend, onChatSendStart, hd, hq]
    · rcases hk : s.session.apiKey with _ | key
      · simp [clickChatSend, onChatSendStart, hd, hq, hk]
      · by_cases hke : key = ""
        · simp [clickChatSend, onChatSendStart, hd, hq, hk, hke]
        · simp [clickChatSend, onChatSendStart, hd, hq, hk, hke, h]

/-- C5 witness: the no-op at a concrete state with a typed question and a
key present but no analysis. -/
theorem claim5_witness : clickChatSend sNoAnalysisW 9 = (sNoAnalysisW, none) :=
  claim5_no_analysis_noop sNoAnalysisW 9 rfl

/-- C5 counterexample: at a concrete state with a question and a key but no
prior analysis the call returns with the state completely unchanged — the
history gets nothing (that half of the claim holds), but no failure is
produced and the error banner stays empty, refuting the claimed
NoAnalysisYet error. -/
theorem claim5_counterexample :
    clickChatSend sNoAnalysis 3 = (sNoAnalysis, none) ∧
    sNoAnalysis.ui.errorBanner = none ∧
    (clickChatSend sNoAnalysis 3).1.ui.errorBanner = none ∧
    (clickChatSend sNoAnalysis 3).1.session.chatHistory = sNoAnalysis.session.chatHistory :=
  ⟨rfl, rfl, rfl, rfl⟩

/-- C7: once a follow-up send actually started (the click dispatched and the
guards passed), a successful completion grows the chat history by exactly
two entries — first the user entry with the trimmed question stamped at send
time, then the reply entry stamped at completion time (the source labels the
assistant role with the literal gemini) — while a failed completion leaves
exactly the optimistically appended user entry and appends no reply
entry. -/
theorem claim7_followup_history (s s1 : AppState) (t1 t2 : Nat) (req : Req)
    (reply : String) (e : CallErr)
    (h : clickChatSend s t1 = (s1, some req)) :
    (onChatSendFinish s1 (Except.ok reply) t2).session.chatHistory =
      s.session.chatHistory ++
        [{ role := "user", text := jsTrim s.ui.chatInputValue, timestamp := t1 },
         { role := "gemini", text := reply, timestamp := t2 }] ∧
    (onChatSendFinish s1 (Except.error e) t2).session.chatHistory =
      s.session.chatHistory ++
        [{ role := "user", text := jsTrim s.ui.chatInputValue, timestamp := t1 }] := by
  by_cases hd : s.ui.chatSendBtnDisabled = true
  · simp [clickChatSend, hd] at h
  · by_cases hq : jsTrim s.ui.chatInputValue = ""
    · simp [clickChatSend, onChatSendStart, hd, hq] at h
    · rcases hk : s.session.apiKey with _ | key
      · simp [clickChatSend, onChatSendStart, hd, hq, hk] at h
      · by_cases hke : key = ""
        · simp [clickChatSend, onChatSendStart, hd, hq, hk, hke] at h
        · rcases hr : s.session.analysisResult with _ | r
          · simp [clickChatSend, onChatSendStart, hd, hq, hk, hke, hr] at h
          · simp only [clickChatSend, onChatSendStart, hd, hq, hk, hke, hr, if_false,
              Bool.false_eq_true, if_neg, Prod.mk.injEq] at h
            obtain ⟨hs1, hreq⟩ :
                ({ session := appendChat s.session "user" (jsTrim s.ui.chatInputValue) t1,
                   ui := setChatSending
                     (clearChatInput (appendChatMessage s.ui "user" (jsTrim s.ui.chatInputValue)))
                     true,
                   pending := s.pending + 1 } : AppState) = s1 ∧
                  some (Req.followUpReq (jsTrim s.ui.chatInputValue) s.session.currentCode key)
                    = some req := by
              simpa using h
            subst hs1
            exact ⟨by simp [onChatSendFinish, appendChat],
                   by simp [onChatSendFinish, appendChat]⟩

/-- C7 witness: the scenario follow-up, sent from the post-analysis state
with question why, succeeding with a concrete reply and failing with a
concrete error. -/
theorem claim7_witness :
    (onChatSendFinish sSending (Except.ok "Because.") 7).session.chatHistory =
      s3.session.chatHistory ++
        [{ role := "user", text := jsTrim s3.ui.chatInputValue, timestamp := 5 },
         { role := "gemini", text := "Because.", timestamp := 7 }] ∧
    (onChatSendFinish sSending (Except.error CallErr.rateLimited) 7).session.chatHistory =
      s3.session.chatHistory ++
        [{ role := "user", text := jsTrim s3.ui.chatInputValue, timestamp := 5 }] :=
  claim7_followup_history s3 sSending 5 7 (Req.followUpReq "why?" scenarioCode "k123")
    "Because." CallErr.rateLimited rfl

/-- C8: for every analyze call that started (click dispatched, request
issued) and then failed, analysisResult after the handler finishes equals
analysisResult before the call, and the failure is reported through the
error banner rather than stored. -/
theorem claim8_failure_preserves_result (s s1 : AppState) (req : Req) (code : String)
    (e : AnalyzeErr) (h : clickAnalyze s = (s1, some req)) :
    (onAnalyzeFinish s1 code (Except.error e)).session.analysisResult =
      s.session.analysisResult ∧
    (onAnalyzeFinish s1 code (Except.error e)).ui.errorBanner =
      some (analyzeErrMessage e) := by
  unfold clickAnalyze at h
  split at h
  · exact Option.noConfusion (congrArg Prod.snd h)
  · unfold onAnalyzeStart at h
    split at h
    · exact Option.noConfusion (congrArg Prod.snd h)
    · split at h
      · exact Option.noConfusion (congrArg Prod.snd h)
      · cases h
        exact ⟨rfl, rfl⟩

/-- C8 witness: the scenario analyze click failing with the classification
the endpoint status 429 produces (RateLimited); the stored result stays the
pre-call none. -/
theorem claim8_witness :
    (onAnalyzeFinish (clickAnalyze s0).1 scenarioCode
        (Except.error (AnalyzeErr.call CallErr.rateLimited))).session.analysisResult =
      s0.session.analysisResult ∧
    (onAnalyzeFinish (clickAnalyze s0).1 scenarioCode
        (Except.error (AnalyzeErr.call CallErr.rateLimited))).ui.errorBanner =
      some (analyzeErrMessage (AnalyzeErr.call CallErr.rateLimited)) :=
  claim8_failure_preserves_result s0 (clickAnalyze s0).1
    (Req.analyzeReq scenarioCode "auto" "k123") scenarioCode
    (AnalyzeErr.call CallErr.rateLimited) rfl

/-- C1 (amended): the normalizer neither repairs nor drops smells elements —
whenever the parsed object carries an array under smells, the returned
sequence is exactly that array, element for element, non-objects included.
The described per-element repair happens only at render time in the UI: a
smell object with all fields absent renders as Unknown Smell with badge
Minor, css class minor and empty location and explanation, and the severity
css normalization is case-insensitive with everything outside critical and
major falling to minor. -/
theorem claim1_smells_passthrough_ui_repair :
    (∀ (text fb : String) (r : AnalysisResult) (xs : List Json),
        normalizeAnalysis text fb = Except.ok r →
        parsedField text "smells" = some (Json.arr xs) → r.smells = xs) ∧
    (∀ fields : List (String × Json),
        lookupLast fields "name" = none → lookupLast fields "severity" = none →
        lookupLast fields "location" = none → lookupLast fields "explanation" = none →
        createSmellCard (Json.obj fields) =
          Except.ok { name := "Unknown Smell", badge := "Minor", sevClass := "minor",
                      location := "", explanation := "" }) ∧
    (∀ a b : String, lowerStr a = lowerStr b →
        normaliseSeverity (some (Json.str a)) = normaliseSeverity (some (Json.str b))) ∧
    (∀ a : String,
        normaliseSeverity (some (Json.str a)) = Except.ok "critical" ∨
        normaliseSeverity (some (Json.str a)) = Except.ok "major" ∨
        normaliseSeverity (some (Json.str a)) = Except.ok "minor") := by
  refine ⟨?_, ?_, ?_, ?_⟩
  · intro text fb r xs h hf
    unfold normalizeAnalysis at h
    unfold parsedField at hf
    rcases hp : Json.parse (stripFences text) with _ | v
    · rw [hp] at h
      exact Except.noConfusion h
    · rw [hp] at h hf
      cases v with
      | null => exact Except.noConfusion h
      | bool b => exact Except.noConfusion h
      | num l => exact Except.noConfusion h
      | str ss => exact Except.noConfusion h
      | arr es => exact Option.noConfusion hf
      | obj fields =>
        simp only [repairParsed, Except.ok.injEq] at h
        subst h
        simp only at hf ⊢
        rw [hf]
  · intro fields h1 h2 h3 h4
    simp [createSmellCard, readProp, normaliseSeverity, h1, h2, h3, h4]
  · intro a b hab
    simp only [normaliseSeverity, hab]
  · intro a
    simp only [normaliseSeverity]
    split_ifs <;> simp

/-- C1 witness: the fully populated payload passes its single smell object
through verbatim, and the empty smell object renders with every claimed
fallback. -/
theorem claim1_witness :
    ({ summary := "two smells", smells := [c1Smell],
       refactored_code := "function f(x)\x7breturn x;\x7d" } : AnalysisResult).smells
        = [c1Smell] ∧
    createSmellCard (Json.obj []) =
      Except.ok { name := "Unknown Smell", badge := "Minor", sevClass := "minor",
                  location := "", explanation := "" } :=
  ⟨claim1_smells_passthrough_ui_repair.1 c1WitnessText "FB" _ [c1Smell] rfl rfl,
   claim1_smells_passthrough_ui_repair.2.1 [] rfl rfl rfl rfl⟩

/-- C1 counterexample: a payload whose smells array holds an empty object
and the bare number five comes back from the normalizer unchanged — the
number, not being an object, is kept rather than dropped, and the empty
object gains no name field — refuting the claimed repair and dropping. -/
theorem claim1_counterexample :
    resultSmells (normalizeAnalysis c1CexText "FB") = [Json.obj [], Json.num "5"] ∧
    (Json.num "5").isObj = false ∧
    lookupLast [] "name" = none :=
  ⟨rfl, rfl, rfl⟩

/-- C3 (amended): the refactored code of a normalizer success is the string
found under refactored_code in the parsed object whenever there is one —
including the empty string, which is kept as-is — and is the fallback code
passed in exactly when that field is missing or not text. -/
theorem claim3_refactored_fallback (text fb : String) (r : AnalysisResult)
    (h : normalizeAnalysis text fb = Except.ok r) :
    ((∀ s : String, parsedField text "refactored_code" ≠ some (Json.str s)) →
        r.refactored_code = fb) ∧
    (∀ s : String, parsedField text "refactored_code" = some (Json.str s) →
        r.refactored_code = s) := by
  unfold normalizeAnalysis at h
  rcases hp : Json.parse (stripFences text) with _ | v
  · rw [hp] at h
    exact Except.noConfusion h
  · rw [hp] at h
    cases v with
    | null => exact Except.noConfusion h
    | bool b => exact Except.noConfusion h
    | num l => exact Except.noConfusion h
    | str ss => exact Except.noConfusion h
    | arr es =>
      simp only [repairParsed, Except.ok.injEq] at h
      subst h
      constructor
      · intro _
        rfl
      · intro s hs
        unfold parsedField at hs
        rw [hp] at hs
        exact Option.noConfusion hs
    | obj fields =>
      simp only [repairParsed, Except.ok.injEq] at h
      subst h
      constructor
      · intro hmiss
        simp only
        rcases hl : lookupLast fields "refactored_code" with _ | w
        · simp
        · cases w with
          | str ws =>
            exfalso
            apply hmiss ws
            unfold parsedField
            rw [hp]
            simp [hl]
          | null => simp
          | bool b => simp
          | num l => simp
          | arr es => simp
          | obj fs => simp
      · intro s hs
        unfold parsedField at hs
        rw [hp] at hs
        simp only at hs
        simp only
        rw [hs]

/-- C3 witness: a payload with no refactored code field at all falls back to
the original code of the caller. -/
theorem claim3_witness :
    ({ summary := "s", smells := [], refactored_code := "ORIG" } : AnalysisResult).refactored_code
      = "ORIG" :=
  (claim3_refactored_fallback c4WitnessText "ORIG" _ rfl).1
    (fun s hs => by
      rw [show parsedField c4WitnessText "refactored_code" = none from rfl] at hs
      exact Option.noConfusion hs)

/-- C3 counterexample: a payload whose refactored code is present but empty
is normalized to the empty string, not to the fallback — refuting both the
never-empty invariant and the empty-text-falls-back clause. -/
theorem claim3_counterexample :
    normalizeAnalysis c3CexText "ORIG" =
      Except.ok { summary := "", smells := [], refactored_code := "" } ∧
    "ORIG" ≠ "" :=
  ⟨rfl, by decide⟩

/-- C4 (amended): normalization of text that does not parse as JSON after
fence stripping fails with ParseError and nothing else; text parsing to an
object or array never fails; but text parsing to null or a primitive makes
the field repair itself throw a TypeError distinct from ParseError, a second
failure mode the claim rules out. -/
theorem claim4_failure_modes (text fb : String) :
    (Json.parse (stripFences text) = none →
      normalizeAnalysis text fb = Except.error NormErr.parseError) ∧
    (∀ v : Json, Json.parse (stripFences text) = some v → structuredJson v = true →
      (normalizeAnalysis text fb).isOk = true) ∧
    (∀ v : Json, Json.parse (stripFences text) = some v → structuredJson v = false →
      normalizeAnalysis text fb = Except.error NormErr.typeError) := by
  refine ⟨?_, ?_, ?_⟩
  · intro hp
    unfold normalizeAnalysis
    rw [hp]
  · intro v hp hs
    unfold normalizeAnalysis
    rw [hp]
    cases v <;> simp_all [structuredJson, repairParsed, Except.isOk, Except.toBool]
  · intro v hp hs
    unfold normalizeAnalysis
    rw [hp]
    cases v <;> simp_all [structuredJson, repairParsed]

/-- C4 witness: a fenced object payload is accepted and repaired without
failure. -/
theorem claim4_witness : (normalizeAnalysis c4WitnessText "C").isOk = true :=
  (claim4_failure_modes c4WitnessText "C").2.1 (Json.obj [("summary", Json.str "s")]) rfl rfl

/-- C4 counterexample: the text null is valid JSON after fence stripping,
yet normalization fails — and with the repair TypeError, not ParseError —
refuting both the claimed single failure mode and the claim that valid JSON
never fails. -/
theorem claim4_counterexample :
    Json.parse (stripFences "null") = some Json.null ∧
    normalizeAnalysis "null" "FB" = Except.error NormErr.typeError :=
  ⟨rfl, rfl⟩

/-- C6: callGemini classifies every request outcome deterministically —
timeout expiry (the TimeoutError of the thirty-second AbortSignal, reported
as AbortError by some engines) gives the timeout failure, any other
transport failure the network failure, status 400 the bad-credential
failure, 401 and 403 the unauthorized failure, 429 the rate-limit failure,
any other non-2xx the endpoint failure carrying the status, a 2xx whose body
does not parse or whose text field is absent, non-string or blank the
malformed-envelope failure, and otherwise the text payload is returned
verbatim. -/
theorem claim6_outcome_classification :
    REQUEST_TIMEOUT_MS = 30000 ∧
    (∀ n : String, n = "TimeoutError" ∨ n = "AbortError" →
      geminiOutcome (FetchOutcome.transportFail n) = Except.error CallErr.timeout) ∧
    (∀ n : String, n ≠ "TimeoutError" → n ≠ "AbortError" →
      geminiOutcome (FetchOutcome.transportFail n) = Except.error CallErr.networkError) ∧
    (∀ body : Option Json,
      geminiOutcome (FetchOutcome.response 400 body) = Except.error CallErr.badCredential) ∧
    (∀ (body : Option Json) (st : Nat), st = 401 ∨ st = 403 →
      geminiOutcome (FetchOutcome.response st body) = Except.error CallErr.unauthorized) ∧
    (∀ body : Option Json,
      geminiOutcome (FetchOutcome.response 429 body) = Except.error CallErr.rateLimited) ∧
    (∀ (body : Option Json) (st : Nat), ¬(200 ≤ st ∧ st ≤ 299) →
      st ≠ 400 → st ≠ 401 → st ≠ 403 → st ≠ 429 →
      geminiOutcome (FetchOutcome.response st body) = Except.error (CallErr.endpointError st)) ∧
    (∀ st : Nat, 200 ≤ st → st ≤ 299 →
      geminiOutcome (FetchOutcome.response st none) =
        Except.error (CallErr.malformedEnvelope false)) ∧
    (∀ (st : Nat) (data : Json), 200 ≤ st → st ≤ 299 → extractedText data = none →
      geminiOutcome (FetchOutcome.response st (some data)) =
        Except.error (CallErr.malformedEnvelope true)) ∧
    (∀ (st : Nat) (data : Json) (t : String), 200 ≤ st → st ≤ 299 →
      extractedText data = some t → jsTrim t = "" →
      geminiOutcome (FetchOutcome.response st (some data)) =
        Except.error (CallErr.malformedEnvelope true)) ∧
    (∀ (st : Nat) (data : Json) (t : String), 200 ≤ st → st ≤ 299 →
      extractedText data = some t → jsTrim t ≠ "" →
      geminiOutcome (FetchOutcome.response st (some data)) = Except.ok t) := by
  refine ⟨rfl, ?_, ?_, ?_, ?_, ?_, ?_, ?_, ?_, ?_, ?_⟩
  · intro n h
    rcases h with h | h <;> subst h <;> rfl
  · intro n h1 h2
    simp [geminiOutcome, h1, h2]
  · intro body
    rfl
  · intro body st h
    rcases h with h | h <;> subst h <;> rfl
  · intro body
    rfl
  · intro body st hr h400 h401 h403 h429
    have hok : respOk st = false := by
      simp only [respOk, Bool.and_eq_false_iff, decide_eq_false_iff_not]
      omega
    simp [geminiOutcome, h400, h401, h403, h429, hok]
  · intro st h1 h2
    have hok : respOk st = true := by
      simp only [respOk, Bool.and_eq_true, decide_eq_true_eq]
      omega
    have h400 : st ≠ 400 := by omega
    have h401 : st ≠ 401 := by omega
    have h403 : st ≠ 403 := by omega
    have h429 : st ≠ 429 := by omega
    simp [geminiOutcome, h400, h401, h403, h429, hok]
  · intro st data h1 h2 he
    have hok : respOk st = true := by
      simp only [respOk, Bool.and_eq_true, decide_eq_true_eq]
      omega
    have h400 : st ≠ 400 := by omega
    have h401 : st ≠ 401 := by omega
    have h403 : st ≠ 403 := by omega
    have h429 : st ≠ 429 := by omega
    simp [geminiOutcome, h400, h401, h403, h429, hok, he]
  · intro st data t h1 h2 he ht
    have hok : respOk st = true := by
      simp only [respOk, Bool.and_eq_true, decide_eq_true_eq]
      omega
    have h400 : st ≠ 400 := by omega
    have h401 : st ≠ 401 := by omega
    have h403 : st ≠ 403 := by omega
    have h429 : st ≠ 429 := by omega
    simp [geminiOutcome, h400, h401, h403, h429, hok, he, ht]
  · intro st data t h1 h2 he ht
    have hok : respOk st = true := by
      simp only [respOk, Bool.and_eq_true, decide_eq_true_eq]
      omega
    have h400 : st ≠ 400 := by omega
    have h401 : st ≠ 401 := by omega
    have h403 : st ≠ 403 := by omega
    have h429 : st ≠ 429 := by omega
    simp [geminiOutcome, h400, h401, h403, h429, hok, he, ht]

/-- C6 witness: a concrete 2xx envelope with a non-blank payload coming back
verbatim (all hypotheses of the final conjunct discharged at it). -/
theorem claim6_witness :
    geminiOutcome (FetchOutcome.response 200 (some (okEnvelope "hello"))) = Except.ok "hello" :=
  claim6_outcome_classification.2.2.2.2.2.2.2.2.2.2 200 (okEnvelope "hello") "hello"
    (by omega) (by omega) rfl (by decide)
